import Mathlib

/-!
Verification development for the RAG chatbot backend.

This file shallowly embeds the tool-calling orchestration of
`backend/ai_generator.py` (class `AIGenerator`) and the search tools of
`backend/search_tools.py` (`CourseSearchTool`, `ToolManager`), and proves
or refutes the specification's claims about them.

Modelling conventions:
- The external Anthropic client (`self.client.messages.create`) is modelled
  as a function from the call sequence number to either an exception
  (`Except.error ()`) or an `APIResponse`; the orchestrator threads a call
  counter and records, for each call it makes, whether tool schemas were
  attached (`GenState.trace`).
- Python exceptions are `Except.error ()`; a Python function that may raise
  returns `Except Unit α`.
- Python's unbounded (mutual) recursion is modelled with an explicit fuel
  argument: a result of `none` means the recursion exceeded the given fuel,
  so `none` for every fuel means the Python code never returns.
- Python truthiness on `Optional[str]` / `Optional[int]` values is modelled
  explicitly (`None`, `""` and `0` are falsy).
-/

/-- A content block of an LLM response, duck-typed as in the Python code:
the orchestrator reads `.type`, `.text`, `.name`, `.id`, `.input`. -/
structure ContentBlock where
  type : String
  text : String := ""
  name : String := ""
  id : String := ""
  input : List (String × String) := []
deriving DecidableEq, Repr

/-- An LLM API response: a stop reason and an ordered content list. -/
structure APIResponse where
  stop_reason : String
  content : List ContentBlock
deriving DecidableEq, Repr

/-- A tool result entry fed back to the LLM (`{"type": "tool_result", ...}`). -/
structure ToolResult where
  tool_use_id : String
  content : String
deriving DecidableEq, Repr

/-- Content of a conversation message: plain text, the assistant's content
blocks, or a list of tool results. -/
inductive MessageContent where
  | text (s : String)
  | blocks (bs : List ContentBlock)
  | results (rs : List ToolResult)
deriving DecidableEq, Repr

/-- One message of the running conversation. -/
structure Message where
  role : String
  content : MessageContent
deriving DecidableEq, Repr

/-- The external LLM client: outcome of the n-th `messages.create` call
(an exception or a response).  The message payload is abstracted away;
each call of one orchestration run has a distinct sequence number. -/
def Client : Type := Nat → Except Unit APIResponse

/-- The tool dispatcher (`tool_manager.execute_tool`): may raise. -/
def ToolDispatch : Type := String → List (String × String) → Except Unit String

/-- Orchestrator bookkeeping: the next call sequence number and, per call
already made, whether tool schemas were attached. -/
structure GenState where
  n : Nat
  trace : List Bool
deriving DecidableEq, Repr

/-- Perform one `messages.create` call: consult the client at the current
sequence number and record whether tools were attached. -/
def makeApiCall (client : Client) (st : GenState) (withTools : Bool) :
    Except Unit APIResponse × GenState :=
  (client st.n, { n := st.n + 1, trace := st.trace ++ [withTools] })

/-- `AIGenerator._extract_text_response` (also the tail of the single-call
path of `generate_response`): apology string on empty content, else the
first content block's `.text`. -/
def extractTextResponse (r : APIResponse) : String :=
  match r.content with
  | [] => "I apologize, but I encountered an issue generating a response. Please try rephrasing your question."
  | b :: _ => b.text

/-- The fixed string returned when tool execution fails
(`ai_generator.py` line 154). -/
def searchErrorMsg : String :=
  "I encountered an error while searching. Please try rephrasing your question."

/-- The fixed string returned when the final, tools-free call fails
(`ai_generator.py` line 169). -/
def finalErrorMsg : String :=
  "I gathered some information but encountered an issue generating the final response. Please try rephrasing your question."

/-- The tool-execution loop of `_execute_and_append_tools`: execute every
`tool_use` block in order; if any raises, the whole round raises. -/
def runTools (d : ToolDispatch) : List ContentBlock → Except Unit (List ToolResult)
  | [] => .ok []
  | b :: bs =>
    if b.type == "tool_use" then
      match d b.name b.input with
      | .error e => .error e
      | .ok r =>
        match runTools d bs with
        | .error e => .error e
        | .ok rs => .ok ({ tool_use_id := b.id, content := r } :: rs)
    else runTools d bs

/-- `AIGenerator._execute_and_append_tools`: append the assistant's content,
run the tools, and on success append the tool results (only when some
exist); return whether execution succeeded together with the message list
as mutated (on failure the assistant message has already been appended). -/
def executeAndAppendTools (d : ToolDispatch) (resp : APIResponse)
    (msgs : List Message) : Bool × List Message :=
  let msgs1 := msgs ++ [⟨"assistant", .blocks resp.content⟩]
  match runTools d resp.content with
  | .error _ => (false, msgs1)
  | .ok rs => (true, if rs.isEmpty then msgs1 else msgs1 ++ [⟨"user", .results rs⟩])

mutual

/-- `AIGenerator.generate_response`: with tools and a tool manager present
(`hasTools`), delegate to the sequential path; otherwise make a single call
whose exception, if any, propagates to the caller (`Except.error`). -/
def generateResponse (client : Client) (d : ToolDispatch) (query : String) :
    Nat → Bool → GenState → Option (Except Unit String) × GenState
  | 0, _, st => (none, st)
  | fuel + 1, hasTools, st =>
    if hasTools then generateSeq client d query fuel hasTools st
    else
      let (r, st1) := makeApiCall client st false
      match r with
      | .error _ => (some (.error ()), st1)
      | .ok resp => (some (.ok (extractTextResponse resp)), st1)

/-- `AIGenerator.generate_response_with_sequential_tools`: if tools or the
manager are missing, fall back to `generate_response`; otherwise run the
round loop starting from the single user message. -/
def generateSeq (client : Client) (d : ToolDispatch) (query : String) :
    Nat → Bool → GenState → Option (Except Unit String) × GenState
  | 0, _, st => (none, st)
  | fuel + 1, hasTools, st =>
    if hasTools then
      seqLoop client d query fuel st 2 [⟨"user", .text query⟩]
    else generateResponse client d query fuel hasTools st

/-- The `for round_num in range(max_rounds)` loop of
`generate_response_with_sequential_tools`, with `rounds` rounds left, and —
once the rounds are exhausted — the final tools-free call.  An exception
from an in-loop LLM call re-enters `generate_response` (with tools still
present); an exception from the final call yields `finalErrorMsg`. -/
def seqLoop (client : Client) (d : ToolDispatch) (query : String) :
    Nat → GenState → Nat → List Message → Option (Except Unit String) × GenState
  | 0, st, _, _ => (none, st)
  | _ + 1, st, 0, _ =>
    let (r, st1) := makeApiCall client st false
    match r with
    | .error _ => (some (.ok finalErrorMsg), st1)
    | .ok resp => (some (.ok (extractTextResponse resp)), st1)
  | fuel + 1, st, rounds + 1, msgs =>
    let (r, st1) := makeApiCall client st true
    match r with
    | .error _ => generateResponse client d query fuel true st1
    | .ok resp =>
      if resp.stop_reason ≠ "tool_use" then
        (some (.ok (extractTextResponse resp)), st1)
      else
        match executeAndAppendTools d resp msgs with
        | (true, msgs1) => seqLoop client d query fuel st1 rounds msgs1
        | (false, _) => (some (.ok searchErrorMsg), st1)

end

/-- A client whose every call raises (e.g. the network is down). -/
def raisingClient : Client := fun _ => .error ()

/-- A client whose calls never raise, with arbitrary responses. -/
def okClient (resps : Nat → APIResponse) : Client := fun n => .ok (resps n)

/-- The initial orchestrator bookkeeping state: no calls made yet. -/
def initState : GenState := { n := 0, trace := [] }

/-- Metadata of one retrieved chunk, as read by `_format_results` via
`meta.get('course_title', 'unknown')` and `meta.get('lesson_number')`:
an absent key is `none`. -/
structure Meta where
  course_title : Option String := none
  lesson_number : Option Int := none
deriving DecidableEq, Repr

/-- A citation surfaced to the UI: `{"text": ..., "link": ...}`, the link
key present only when the lesson link is truthy. -/
structure Source where
  text : String
  link : Option String := none
deriving DecidableEq, Repr

/-- Modelled from the spec: `vector_store.py` is not under `src/`.  Spec §6:
the vector-store response is parallel arrays (documents, metadata) or an
explicit error string.  The unused distances array is omitted. -/
structure SearchResults where
  documents : List String
  metadata : List Meta
  error : Option String := none

/-- Modelled from the spec: `SearchResults.is_empty` — a result set with no
matching passages (no documents). -/
def SearchResults.is_empty (r : SearchResults) : Bool := r.documents.isEmpty

/-- Modelled from the spec: the vector store collaborator used by
`CourseSearchTool` — a scoped similarity `search` and a lesson-link lookup
`get_lesson_link` (absent link is `none`). -/
structure StoreModel where
  search : String → Option String → Option Int → SearchResults
  get_lesson_link : String → Int → Option String

/-- Python truthiness of an `Optional[str]`: `None` and `""` are falsy. -/
def truthyStr : Option String → Bool
  | none => false
  | some s => s != ""

namespace CourseSearchTool

/-- The `[course - Lesson n]` context header built in `_format_results`. -/
def headerOf (m : Meta) : String :=
  let t := m.course_title.getD "unknown"
  "[" ++ t ++
    (match m.lesson_number with
     | some n => " - Lesson " ++ toString n
     | none => "") ++ "]"

/-- The source display text built in `_format_results`. -/
def sourceTextOf (m : Meta) : String :=
  let t := m.course_title.getD "unknown"
  t ++
    (match m.lesson_number with
     | some n => " - Lesson " ++ toString n
     | none => "")

/-- The per-chunk source record of `_format_results`: the link is looked up
only when a lesson number is present and the title is not `'unknown'`, and
is kept only when truthy (`if lesson_link:`). -/
def sourceOf (store : StoreModel) (m : Meta) : Source :=
  let t := m.course_title.getD "unknown"
  let lesson_link : Option String :=
    match m.lesson_number with
    | some n => if t ≠ "unknown" then store.get_lesson_link t n else none
    | none => none
  { text := sourceTextOf m
    link :=
      match lesson_link with
      | some l => if l != "" then some l else none
      | none => none }

/-- The `for doc, meta in zip(...)` loop of `_format_results`, producing the
formatted blocks and the source records in order. -/
def formatLoop (store : StoreModel) : List (String × Meta) → List String × List Source
  | [] => ([], [])
  | (doc, m) :: rest =>
    let (fs, ss) := formatLoop store rest
    ((headerOf m ++ "\n" ++ doc) :: fs, sourceOf store m :: ss)

/-- `CourseSearchTool._format_results`: format the zipped documents and
metadata, join with blank lines, and overwrite `last_sources`. -/
def formatResults (store : StoreModel) (results : SearchResults) :
    String × List Source :=
  let pairs := results.documents.zip results.metadata
  let (formatted, sources) := formatLoop store pairs
  (String.intercalate "\n\n" formatted, sources)

/-- The `if course_name:` contribution to the empty-result message
(Python truthiness: `None` and `""` contribute nothing). -/
def courseFilterInfo : Option String → String
  | some c => if c != "" then " in course '" ++ c ++ "'" else ""
  | none => ""

/-- The `if lesson_number:` contribution to the empty-result message
(Python truthiness: `None` and `0` contribute nothing). -/
def lessonFilterInfo : Option Int → String
  | some n => if n != 0 then " in lesson " ++ toString n else ""
  | none => ""

/-- `CourseSearchTool.execute`: search the store; a truthy error string is
returned as-is; an empty result set yields the "No relevant content found"
message naming the truthy filters; otherwise format the results.  The
returned pair is (tool output, resulting `last_sources`). -/
def execute (store : StoreModel) (last_sources : List Source) (query : String)
    (course_name : Option String := none) (lesson_number : Option Int := none) :
    String × List Source :=
  let results := store.search query course_name lesson_number
  if truthyStr results.error then (results.error.getD "", last_sources)
  else if results.is_empty then
    let filter_info := courseFilterInfo course_name ++ lessonFilterInfo lesson_number
    ("No relevant content found" ++ filter_info ++ ".", last_sources)
  else formatResults store results

end CourseSearchTool

/-- The result of `tool.get_tool_definition()`, of which `register_tool`
reads only `tool_def.get("name")` (absent key is `none`). -/
structure ToolDef where
  name : Option String := none

/-- A registered tool object: its definition, its `execute` method (which
may raise), and — when the attribute exists — its `last_sources` list
(`none` models a tool without the attribute). -/
structure ToolModel where
  tdef : ToolDef
  execute : List (String × String) → Except Unit String
  last_sources : Option (List Source) := none

/-- Insertion-ordered dictionary update: assignment to an existing key
replaces its value in place, a new key is appended (Python dict). -/
def dictInsert {α : Type} : List (String × α) → String → α → List (String × α)
  | [], k, v => [(k, v)]
  | (k1, v1) :: rest, k, v =>
    if k1 = k then (k, v) :: rest else (k1, v1) :: dictInsert rest k v

/-- Dictionary lookup. -/
def dictGet {α : Type} : List (String × α) → String → Option α
  | [], _ => none
  | (k1, v1) :: rest, k => if k1 = k then some v1 else dictGet rest k

/-- `ToolManager`: the name → tool mapping `self.tools`. -/
structure ToolManager where
  tools : List (String × ToolModel)

/-- The `for tool in self.tools.values()` scan of `get_last_sources`:
return the first tool whose `last_sources` attribute exists and is truthy
(a non-empty list), else `[]`. -/
def lastSourcesScan : List (String × ToolModel) → List Source
  | [] => []
  | (_, t) :: rest =>
    match t.last_sources with
    | some ss => if ss.isEmpty then lastSourcesScan rest else ss
    | none => lastSourcesScan rest

namespace ToolManager

/-- `ToolManager.register_tool`: raise (`Except.error`) when the definition
declares no truthy name, else store the tool under its name (overwriting
any previous tool of that name). -/
def register_tool (m : ToolManager) (t : ToolModel) : Except Unit ToolManager :=
  match t.tdef.name with
  | none => .error ()
  | some nm => if nm != "" then .ok ⟨dictInsert m.tools nm t⟩ else .error ()

/-- `ToolManager.execute_tool`: a name absent from the registry yields the
"not found" string (without raising); otherwise run the tool's `execute`,
whose exception, if any, propagates. -/
def execute_tool (m : ToolManager) (name : String)
    (args : List (String × String)) : Except Unit String :=
  match dictGet m.tools name with
  | none => .ok ("Tool '" ++ name ++ "' not found")
  | some t => t.execute args

/-- `ToolManager.get_last_sources`. -/
def get_last_sources (m : ToolManager) : List Source :=
  lastSourcesScan m.tools

/-- `ToolManager.reset_sources`: set `last_sources = []` on every tool that
has the attribute. -/
def reset_sources (m : ToolManager) : ToolManager :=
  ⟨m.tools.map fun p =>
    (p.1, { p.2 with last_sources := p.2.last_sources.map fun _ => [] })⟩

end ToolManager

/-- Boolean "starts with" on strings, via the underlying character lists. -/
def strStartsWith (s p : String) : Bool := p.data.isPrefixOf s.data

/-- Boolean substring containment on strings. -/
def strContains (s t : String) : Bool := decide (t.data <:+: s.data)

/-- A text content block (witness scaffolding). -/
def wText (s : String) : ContentBlock := { type := "text", text := s }

/-- A tool-use content block (witness scaffolding). -/
def wToolUse (nm bid : String) : ContentBlock :=
  { type := "tool_use", name := nm, id := bid, input := [("query", "q")] }

/-- A plain text response that ends the turn (witness scaffolding). -/
def respEnd : APIResponse := ⟨"end_turn", [wText "hello"]⟩

/-- A first-round tool-use response with two tool calls (witness scaffolding). -/
def respTools1 : APIResponse :=
  ⟨"tool_use", [wToolUse "search_course_content" "t1",
                wToolUse "search_course_content" "t2"]⟩

/-- A second-round tool-use response (witness scaffolding). -/
def respTools2 : APIResponse := ⟨"tool_use", [wToolUse "get_course_outline" "t3"]⟩

/-- A final synthesis response (witness scaffolding). -/
def respFinal : APIResponse := ⟨"end_turn", [wText "final answer"]⟩

/-- A client that always answers without tool use (witness scaffolding). -/
def clientPlain : Client := fun _ => .ok respEnd

/-- A client that requests tools twice, then answers (witness scaffolding). -/
def clientTwoRounds : Client := fun n =>
  if n = 0 then .ok respTools1 else if n = 1 then .ok respTools2 else .ok respFinal

/-- A client that always requests tools (witness scaffolding). -/
def clientToolsForever : Client := fun _ => .ok respTools1

/-- A dispatcher whose every execution succeeds (witness scaffolding). -/
def dOk : ToolDispatch := fun _ _ => .ok "result text"

/-- A dispatcher whose every execution raises (witness scaffolding). -/
def dFail : ToolDispatch := fun _ _ => .error ()

/-- A store whose search always returns an empty result set (witness
scaffolding). -/
def storeEmptyW : StoreModel :=
  { search := fun _ _ _ => { documents := [], metadata := [], error := none }
    get_lesson_link := fun _ _ => none }

/-- A store with one matching passage and a resolvable lesson link (witness
scaffolding). -/
def storeOneHit : StoreModel :=
  { search := fun _ _ _ =>
      { documents := ["MCP servers expose tools.", "Second passage."]
        metadata := [{ course_title := some "MCP", lesson_number := some 2 },
                     { course_title := none, lesson_number := none }]
        error := none }
    get_lesson_link := fun _ _ => some "https://example.com/lesson2" }

/-- The message list after a successful two-call tool round (witness
scaffolding). -/
def msgsAfterRound : List Message := (executeAndAppendTools dOk respTools1 []).2

/-- A tool whose definition has no name (witness scaffolding). -/
def toolNoName : ToolModel := { tdef := {}, execute := fun _ => .ok "x" }

/-- A first tool registered under the name "dup" (witness scaffolding). -/
def toolA : ToolModel :=
  { tdef := { name := some "dup" }, execute := fun _ => .ok "from A" }

/-- A second tool registered under the name "dup" (witness scaffolding). -/
def toolB : ToolModel :=
  { tdef := { name := some "dup" }, execute := fun _ => .ok "from B"
    last_sources := some [{ text := "MCP - Lesson 2" }] }

/-- The empty tool registry (witness scaffolding). -/
def manager0 : ToolManager := ⟨[]⟩

/-- The registry after registering `toolA` (witness scaffolding). -/
def managerA : ToolManager := ⟨[("dup", toolA)]⟩

/-- The registry after re-registering under "dup" with `toolB` (witness
scaffolding). -/
def managerB : ToolManager := ⟨[("dup", toolB)]⟩

/-- With the always-raising client and tools present, every entry point of
the orchestration yields `none` (fuel exhausted) at every fuel: the mutual
recursion `seqLoop` → `generateResponse` → `generateSeq` → `seqLoop` never
reaches a base case. -/
theorem raisingNone (d : ToolDispatch) (q : String) :
    ∀ fuel : Nat,
      (∀ st, (generateResponse raisingClient d q fuel true st).1 = none) ∧
      (∀ st, (generateSeq raisingClient d q fuel true st).1 = none) ∧
      (∀ st rounds msgs, rounds ≠ 0 →
        (seqLoop raisingClient d q fuel st rounds msgs).1 = none) := by
  intro fuel
  induction fuel with
  | zero =>
    refine ⟨?_, ?_, ?_⟩ <;> intros <;>
      simp [generateResponse, generateSeq, seqLoop]
  | succ f ih =>
    obtain ⟨ihg, ihs, ihl⟩ := ih
    refine ⟨?_, ?_, ?_⟩
    · intro st
      rw [generateResponse]
      simpa using ihs st
    · intro st
      rw [generateSeq]
      simpa using ihl st 2 [⟨"user", .text q⟩] (by decide)
    · intro st rounds msgs hr
      match rounds, hr with
      | r + 1, _ =>
        rw [seqLoop]
        simpa [makeApiCall, raisingClient] using
          ihg ⟨st.n + 1, st.trace ++ [true]⟩

/-- With the always-raising client and tools present, every three units of
fuel the orchestration makes exactly one more (failing) tools-attached LLM
call and is back at `generate_response`: after `3 * k` units it has made
`k` calls and still not returned. -/
theorem raisingTrace (d : ToolDispatch) (q : String) :
    ∀ (k : Nat) (st : GenState),
      generateResponse raisingClient d q (3 * k) true st =
        (none, ⟨st.n + k, st.trace ++ List.replicate k true⟩) := by
  intro k
  induction k with
  | zero =>
    intro st
    simp [generateResponse]
  | succ k ih =>
    intro st
    rw [show 3 * (k + 1) = 3 * k + 2 + 1 by ring, generateResponse]
    simp only [if_pos rfl]
    rw [show (3 * k + 2 : Nat) = (3 * k + 1) + 1 from rfl, generateSeq]
    simp only [if_pos rfl]
    rw [show (3 * k + 1 : Nat) = (3 * k) + 1 from rfl, seqLoop]
    simp only [makeApiCall, raisingClient]
    rw [ih]
    simp [List.replicate_succ]
    omega

/-- With a never-raising client, the round loop always returns a string:
each round either terminates (non-tool-use stop reason, or tool failure)
or passes to the next round, and the final tools-free call succeeds. -/
theorem okSeqLoopTerm (resps : Nat → APIResponse) (d : ToolDispatch) (q : String) :
    ∀ (rounds f : Nat) (st : GenState) (msgs : List Message),
      ∃ s, (seqLoop (okClient resps) d q (f + rounds + 1) st rounds msgs).1 =
        some (.ok s) := by
  intro rounds
  induction rounds with
  | zero =>
    intro f st msgs
    rw [show f + 0 + 1 = f + 1 from rfl, seqLoop]
    refine ⟨extractTextResponse (resps st.n), ?_⟩
    simp [makeApiCall, okClient]
  | succ r ih =>
    intro f st msgs
    rw [show f + (r + 1) + 1 = (f + r + 1) + 1 by ring, seqLoop]
    simp only [makeApiCall, okClient]
    by_cases hs : (resps st.n).stop_reason ≠ "tool_use"
    · exact ⟨extractTextResponse (resps st.n), by simp [hs]⟩
    · rcases hEx : executeAndAppendTools d (resps st.n) msgs with ⟨ok, msgs1⟩
      cases ok
      · exact ⟨searchErrorMsg, by simp [hs, hEx]⟩
      · obtain ⟨s, hsz⟩ := ih f ⟨st.n + 1, st.trace ++ [true]⟩ msgs1
        exact ⟨s, by simp [hs, hEx]; exact hsz⟩

/-- Claim C1: with tools and a tool manager present and an LLM client whose
every call raises, the orchestration never returns: for every `k`, after
`3 * k` units of fuel it has made `k` failing tools-attached LLM calls
(the failing call is retried once per fallback cycle, without bound) and
is still running.  The claimed single fallback to the single-call path
never happens. -/
theorem c1_llm_error_fallback_retries_unboundedly (k : Nat) (d : ToolDispatch)
    (q : String) :
    generateResponse raisingClient d q (3 * k) true initState =
      (none, ⟨k, List.replicate k true⟩) := by
  simpa [initState] using raisingTrace d q k initState

/-- Claim C3 counterexample: in the no-tools path a raising client's
exception propagates to the caller (modelled `Except.error`), so not every
path returns a string. -/
theorem c3_counterexample :
    (generateResponse raisingClient (fun _ _ => .ok "") "q" 1 false initState).1 =
      some (.error ()) := by
  rfl

/-- Claim C3, amended: the orchestration terminates with a string on every
input and every behavior of a client whose calls all return; when a call
raises, the no-tools path propagates the exception to the caller and the
tools path re-enters itself and never returns (no fuel suffices). -/
theorem c3_termination_amended (f : Nat) (resps : Nat → APIResponse)
    (d : ToolDispatch) (q : String) (hasTools : Bool) :
    (∃ s, (generateResponse (okClient resps) d q (f + 5) hasTools initState).1 =
      some (.ok s)) ∧
    (generateResponse raisingClient d q 1 false initState).1 =
      some (.error ()) ∧
    (∀ fuel, (generateResponse raisingClient d q fuel true initState).1 = none) := by
  refine ⟨?_, rfl, fun fuel => (raisingNone d q fuel).1 initState⟩
  cases hasTools with
  | false =>
    refine ⟨extractTextResponse (resps 0), ?_⟩
    rw [show f + 5 = f + 4 + 1 from rfl, generateResponse]
    simp [makeApiCall, okClient, initState]
  | true =>
    obtain ⟨s, hs⟩ := okSeqLoopTerm resps d q 2 f initState [⟨"user", .text q⟩]
    refine ⟨s, ?_⟩
    rw [show f + 5 = f + 4 + 1 from rfl, generateResponse]
    simp only [if_pos rfl]
    rw [show f + 4 = f + 3 + 1 from rfl, generateSeq]
    simpa using hs

/-- Entering the orchestration with tools reaches the round loop with
`max_rounds = 2` and the single user message. -/
theorem generateResponse_tools (client : Client) (d : ToolDispatch) (q : String)
    (f : Nat) (st : GenState) :
    generateResponse client d q (f + 5) true st =
      seqLoop client d q (f + 3) st 2 [⟨"user", .text q⟩] := by
  rw [show f + 5 = f + 4 + 1 from rfl, generateResponse]
  rw [show f + 4 = f + 3 + 1 from rfl, generateSeq]
  simp

/-- One round whose response is not tool use returns its text. -/
theorem seqLoop_step_notool (client : Client) (d : ToolDispatch) (q : String)
    (f : Nat) (st : GenState) (r : Nat) (msgs : List Message)
    (resp : APIResponse) (hc : client st.n = .ok resp)
    (hs : resp.stop_reason ≠ "tool_use") :
    seqLoop client d q (f + 1) st (r + 1) msgs =
      (some (.ok (extractTextResponse resp)), ⟨st.n + 1, st.trace ++ [true]⟩) := by
  rw [seqLoop]
  simp [makeApiCall, hc, hs]

/-- One round whose tool execution raises returns the fixed error string. -/
theorem seqLoop_step_fail (client : Client) (d : ToolDispatch) (q : String)
    (f : Nat) (st : GenState) (r : Nat) (msgs : List Message)
    (resp : APIResponse) (hc : client st.n = .ok resp)
    (hs : resp.stop_reason = "tool_use")
    (hf : runTools d resp.content = .error ()) :
    seqLoop client d q (f + 1) st (r + 1) msgs =
      (some (.ok searchErrorMsg), ⟨st.n + 1, st.trace ++ [true]⟩) := by
  rw [seqLoop]
  simp [makeApiCall, hc, hs, executeAndAppendTools, hf]

/-- One round whose tool execution succeeds passes to the next round with
the extended message list. -/
theorem seqLoop_step_ok (client : Client) (d : ToolDispatch) (q : String)
    (f : Nat) (st : GenState) (r : Nat) (msgs : List Message)
    (resp : APIResponse) (rs : List ToolResult) (hc : client st.n = .ok resp)
    (hs : resp.stop_reason = "tool_use")
    (ht : runTools d resp.content = .ok rs) :
    seqLoop client d q (f + 1) st (r + 1) msgs =
      seqLoop client d q f ⟨st.n + 1, st.trace ++ [true]⟩ r
        ((executeAndAppendTools d resp msgs).2) := by
  rw [seqLoop]
  simp [makeApiCall, hc, hs, executeAndAppendTools, ht]

/-- The tools-free final call after the rounds are exhausted returns the
final response's text. -/
theorem seqLoop_final (client : Client) (d : ToolDispatch) (q : String)
    (f : Nat) (st : GenState) (msgs : List Message)
    (resp : APIResponse) (hc : client st.n = .ok resp) :
    seqLoop client d q (f + 1) st 0 msgs =
      (some (.ok (extractTextResponse resp)), ⟨st.n + 1, st.trace ++ [false]⟩) := by
  rw [seqLoop]
  simp [makeApiCall, hc]

/-- Claim C2: whichever round's tool execution raises (first conjunct: round
one, second: round two), the orchestration returns exactly `searchErrorMsg`
and the trace shows no LLM call after that round. -/
theorem c2_tool_error_aborts (f : Nat) (client : Client) (d : ToolDispatch)
    (q : String) (r1 : APIResponse)
    (h0 : client 0 = .ok r1) (h1 : r1.stop_reason = "tool_use") :
    (runTools d r1.content = .error () →
      generateResponse client d q (f + 5) true initState =
        (some (.ok searchErrorMsg), ⟨1, [true]⟩)) ∧
    (∀ rs1 r2, runTools d r1.content = .ok rs1 → client 1 = .ok r2 →
      r2.stop_reason = "tool_use" → runTools d r2.content = .error () →
      generateResponse client d q (f + 5) true initState =
        (some (.ok searchErrorMsg), ⟨2, [true, true]⟩)) := by
  constructor
  · intro hf
    rw [generateResponse_tools, show f + 3 = f + 2 + 1 from rfl,
      seqLoop_step_fail client d q (f + 2) initState 1 _ r1 h0 h1 hf]
    rfl
  · intro rs1 r2 ht1 hc1 hs2 ht2
    rw [generateResponse_tools, show f + 3 = f + 2 + 1 from rfl,
      seqLoop_step_ok client d q (f + 2) initState 1 _ r1 rs1 h0 h1 ht1,
      show f + 2 = f + 1 + 1 from rfl,
      seqLoop_step_fail client d q (f + 1) _ 0 _ r2 hc1 hs2 ht2]
    rfl

/-- Claim C2 witness: a client that requests tools and a dispatcher that
raises produce exactly the fixed error string after a single LLM call. -/
theorem c2_witness :
    generateResponse clientToolsForever dFail "q" (0 + 5) true initState =
      (some (.ok searchErrorMsg), ⟨1, [true]⟩) :=
  (c2_tool_error_aborts 0 clientToolsForever dFail "q" respTools1 rfl rfl).1 rfl

/-- Claim C4: when the first two responses both stop with "tool_use" and
both rounds of tool execution succeed, a third call is made with no tools
attached (trace entry `false`) and its text is the returned answer. -/
theorem c4_two_rounds_then_final (f : Nat) (client : Client) (d : ToolDispatch)
    (q : String) (r1 r2 r3 : APIResponse) (rs1 rs2 : List ToolResult)
    (h0 : client 0 = .ok r1) (hs1 : r1.stop_reason = "tool_use")
    (ht1 : runTools d r1.content = .ok rs1)
    (h1 : client 1 = .ok r2) (hs2 : r2.stop_reason = "tool_use")
    (ht2 : runTools d r2.content = .ok rs2)
    (h2 : client 2 = .ok r3) :
    generateResponse client d q (f + 5) true initState =
      (some (.ok (extractTextResponse r3)), ⟨3, [true, true, false]⟩) := by
  rw [generateResponse_tools, show f + 3 = f + 2 + 1 from rfl,
    seqLoop_step_ok client d q (f + 2) initState 1 _ r1 rs1 h0 hs1 ht1,
    show f + 2 = f + 1 + 1 from rfl,
    seqLoop_step_ok client d q (f + 1) _ 0 _ r2 rs2 h1 hs2 ht2,
    seqLoop_final client d q f _ _ r3 h2]
  rfl

/-- Claim C4 witness: two tool-use rounds followed by a final synthesis. -/
theorem c4_witness :
    generateResponse clientTwoRounds dOk "q" (0 + 5) true initState =
      (some (.ok "final answer"), ⟨3, [true, true, false]⟩) :=
  c4_two_rounds_then_final 0 clientTwoRounds dOk "q" respTools1 respTools2
    respFinal
    [⟨"t1", "result text"⟩, ⟨"t2", "result text"⟩] [⟨"t3", "result text"⟩]
    rfl rfl rfl rfl rfl rfl rfl

/-- Claim C5: when the first response's stop reason is not "tool_use",
exactly one LLM call is made and its text is returned verbatim, with the
apology string substituted exactly when the response has no content. -/
theorem c5_no_tool_use_single_call (f : Nat) (client : Client)
    (d : ToolDispatch) (q : String) (r1 : APIResponse)
    (h0 : client 0 = .ok r1) (hne : r1.stop_reason ≠ "tool_use") :
    generateResponse client d q (f + 5) true initState =
      (some (.ok (extractTextResponse r1)), ⟨1, [true]⟩) ∧
    (r1.content = [] →
      extractTextResponse r1 =
        "I apologize, but I encountered an issue generating a response. Please try rephrasing your question.") ∧
    (∀ b bs, r1.content = b :: bs → extractTextResponse r1 = b.text) := by
  refine ⟨?_, ?_, ?_⟩
  · rw [generateResponse_tools, show f + 3 = f + 2 + 1 from rfl,
      seqLoop_step_notool client d q (f + 2) initState 1 _ r1 h0 hne]
    rfl
  · intro h
    simp [extractTextResponse, h]
  · intro b bs h
    simp [extractTextResponse, h]

/-- Claim C5 witness: a plain text response is returned after one call. -/
theorem c5_witness :
    generateResponse clientPlain dOk "q" (0 + 5) true initState =
      (some (.ok "hello"), ⟨1, [true]⟩) :=
  (c5_no_tool_use_single_call 0 clientPlain dOk "q" respEnd rfl (by decide)).1

/-- When the tool loop succeeds, the tool results' call identifiers are, in
order, exactly the identifiers of the tool-use blocks. -/
theorem runTools_ids (d : ToolDispatch) :
    ∀ (bs : List ContentBlock) (rs : List ToolResult),
      runTools d bs = .ok rs →
      rs.map (fun r => r.tool_use_id) =
        (bs.filter fun b => b.type == "tool_use").map fun b => b.id := by
  intro bs
  induction bs with
  | nil =>
    intro rs h
    simp only [runTools, Except.ok.injEq] at h
    subst h
    simp
  | cons b bs ih =>
    intro rs h
    by_cases hb : (b.type == "tool_use") = true
    · rw [runTools, if_pos hb] at h
      rcases hd : d b.name b.input with e | r
      · rw [hd] at h
        exact absurd h (by simp)
      · rw [hd] at h
        rcases hr : runTools d bs with e | rs1
        · rw [hr] at h
          exact absurd h (by simp)
        · rw [hr] at h
          simp only [Except.ok.injEq] at h
          subst h
          simp [List.filter_cons, hb, ih rs1 hr]
    · rw [runTools, if_neg hb] at h
      simp [List.filter_cons, hb, ih rs h]

/-- Claim C6: in a round whose tool execution succeeds, the tool-result
message appended to the conversation holds exactly one result per tool-use
block, with pairwise matching call identifiers, unique within the round
whenever the LLM's identifiers are distinct. -/
theorem c6_round_result_invariant (d : ToolDispatch) (resp : APIResponse)
    (msgs msgs1 : List Message)
    (h : executeAndAppendTools d resp msgs = (true, msgs1)) :
    ∃ rs, runTools d resp.content = .ok rs ∧
      (msgs1 =
        if rs.isEmpty then msgs ++ [⟨"assistant", .blocks resp.content⟩]
        else msgs ++ [⟨"assistant", .blocks resp.content⟩] ++
          [⟨"user", .results rs⟩]) ∧
      rs.length = (resp.content.filter fun b => b.type == "tool_use").length ∧
      rs.map (fun r => r.tool_use_id) =
        ((resp.content.filter fun b => b.type == "tool_use").map fun b => b.id) ∧
      (((resp.content.filter fun b => b.type == "tool_use").map
          fun b => b.id).Nodup →
        (rs.map fun r => r.tool_use_id).Nodup) := by
  rcases hr : runTools d resp.content with e | rs
  · rw [executeAndAppendTools, hr] at h
    exact absurd h (by simp)
  · refine ⟨rs, rfl, ?_, ?_, ?_, ?_⟩
    · rw [executeAndAppendTools, hr] at h
      simp only [Prod.mk.injEq, true_and] at h
      subst h
      by_cases he : rs.isEmpty <;> simp [he, List.append_assoc]
    · have := runTools_ids d resp.content rs hr
      calc rs.length = (rs.map fun r => r.tool_use_id).length := by simp
        _ = _ := by rw [this]; simp
    · exact runTools_ids d resp.content rs hr
    · intro hn
      rw [runTools_ids d resp.content rs hr]
      exact hn

/-- Claim C6 witness: a round with two tool calls appends exactly two
results with matching, distinct identifiers. -/
theorem c6_witness :
    ∃ rs, runTools dOk respTools1.content = .ok rs ∧
      (msgsAfterRound =
        if rs.isEmpty then [] ++ [⟨"assistant", .blocks respTools1.content⟩]
        else [] ++ [⟨"assistant", .blocks respTools1.content⟩] ++
          [⟨"user", .results rs⟩]) ∧
      rs.length =
        (respTools1.content.filter fun b => b.type == "tool_use").length ∧
      rs.map (fun r => r.tool_use_id) =
        ((respTools1.content.filter fun b => b.type == "tool_use").map
          fun b => b.id) ∧
      (((respTools1.content.filter fun b => b.type == "tool_use").map
          fun b => b.id).Nodup →
        (rs.map fun r => r.tool_use_id).Nodup) :=
  c6_round_result_invariant dOk respTools1 [] msgsAfterRound rfl

/-- Claim C7, amended: on a search with no error and an empty result set the
returned string starts with "No relevant content found" and mentions every
truthy filter (a non-empty course name, a nonzero lesson number); falsy
filter values (empty course name, lesson number 0) are omitted. -/
theorem c7_empty_results_message (store : StoreModel) (st : List Source)
    (q : String) (cn : Option String) (ln : Option Int)
    (he : (store.search q cn ln).error = none)
    (hemp : (store.search q cn ln).is_empty = true) :
    strStartsWith (CourseSearchTool.execute store st q cn ln).1
      "No relevant content found" = true ∧
    (∀ c, cn = some c → c ≠ "" →
      strContains (CourseSearchTool.execute store st q cn ln).1
        (" in course '" ++ c ++ "'") = true) ∧
    (∀ n, ln = some n → n ≠ 0 →
      strContains (CourseSearchTool.execute store st q cn ln).1
        (" in lesson " ++ toString n) = true) := by
  have hmsg : (CourseSearchTool.execute store st q cn ln).1 =
      "No relevant content found" ++
        (CourseSearchTool.courseFilterInfo cn ++
          CourseSearchTool.lessonFilterInfo ln) ++ "." := by
    rw [CourseSearchTool.execute]
    simp [he, hemp, truthyStr]
  refine ⟨?_, ?_, ?_⟩
  · rw [hmsg]
    unfold strStartsWith
    apply List.isPrefixOf_iff_prefix.mpr
    refine ⟨(CourseSearchTool.courseFilterInfo cn ++
      CourseSearchTool.lessonFilterInfo ln).data ++ ".".data, ?_⟩
    simp [String.data_append]
  · intro c hcn hc
    subst hcn
    have hA : CourseSearchTool.courseFilterInfo (some c) =
        " in course '" ++ c ++ "'" := by
      simp [CourseSearchTool.courseFilterInfo, hc]
    rw [hmsg, hA]
    unfold strContains
    apply decide_eq_true
    refine ⟨"No relevant content found".data,
      (CourseSearchTool.lessonFilterInfo ln).data ++ ".".data, ?_⟩
    simp [String.data_append]
  · intro n hln hn
    subst hln
    have hB : CourseSearchTool.lessonFilterInfo (some n) =
        " in lesson " ++ toString n := by
      simp [CourseSearchTool.lessonFilterInfo, hn]
    rw [hmsg, hB]
    unfold strContains
    apply decide_eq_true
    refine ⟨"No relevant content found".data ++
      (CourseSearchTool.courseFilterInfo cn).data, ".".data, ?_⟩
    simp [String.data_append]

/-- Claim C7 counterexample: a lesson-number filter of 0 is passed to the
store's scoped search (so the filter is applied) yet the empty-result
message neither names a lesson nor contains the digit 0, because Python's
`if lesson_number:` treats 0 as falsy. -/
theorem c7_counterexample :
    (CourseSearchTool.execute storeEmptyW [] "q" none (some 0)).1 =
      "No relevant content found." ∧
    strContains (CourseSearchTool.execute storeEmptyW [] "q" none (some 0)).1
      "esson" = false ∧
    strContains (CourseSearchTool.execute storeEmptyW [] "q" none (some 0)).1
      "0" = false := by
  refine ⟨rfl, ?_, ?_⟩ <;> decide

/-- Claim C7 witness: with truthy course and lesson filters the message
starts with the fixed prefix and names both filters. -/
theorem c7_witness :
    strStartsWith (CourseSearchTool.execute storeEmptyW [] "q" (some "MCP")
      (some 2)).1 "No relevant content found" = true ∧
    strContains (CourseSearchTool.execute storeEmptyW [] "q" (some "MCP")
      (some 2)).1 (" in course '" ++ "MCP" ++ "'") = true ∧
    strContains (CourseSearchTool.execute storeEmptyW [] "q" (some "MCP")
      (some 2)).1 (" in lesson " ++ toString (2 : Int)) = true := by
  obtain ⟨h1, h2, h3⟩ :=
    c7_empty_results_message storeEmptyW [] "q" (some "MCP") (some 2) rfl rfl
  exact ⟨h1, h2 "MCP" rfl (by decide), h3 2 rfl (by decide)⟩

/-- The formatting loop produces, in order, one formatted block and one
source record per zipped (document, metadata) pair. -/
theorem formatLoop_eq (store : StoreModel) (ps : List (String × Meta)) :
    CourseSearchTool.formatLoop store ps =
      (ps.map fun p => CourseSearchTool.headerOf p.2 ++ "\n" ++ p.1,
       ps.map fun p => CourseSearchTool.sourceOf store p.2) := by
  induction ps with
  | nil => rfl
  | cons p ps ih =>
    rcases p with ⟨doc, m⟩
    simp [CourseSearchTool.formatLoop, ih]

/-- Claim C8: with parallel result arrays, the formatted output is the
blank-line join of one `[course - Lesson n]`-headed block per passage, one
source record per passage is produced (in order), a missing course title is
rendered "unknown" rather than dropping the entry, and a source's link is
present only when the lesson link is resolvable and truthy. -/
theorem c8_format_results (store : StoreModel) (results : SearchResults)
    (hlen : results.documents.length = results.metadata.length) :
    (CourseSearchTool.formatResults store results).1 =
      String.intercalate "\n\n"
        ((results.documents.zip results.metadata).map
          fun p => CourseSearchTool.headerOf p.2 ++ "\n" ++ p.1) ∧
    (CourseSearchTool.formatResults store results).2 =
      (results.documents.zip results.metadata).map
        (fun p => CourseSearchTool.sourceOf store p.2) ∧
    (CourseSearchTool.formatResults store results).2.length =
      results.documents.length ∧
    (∀ ln, CourseSearchTool.headerOf ⟨none, ln⟩ =
      CourseSearchTool.headerOf ⟨some "unknown", ln⟩) ∧
    (∀ t n, CourseSearchTool.headerOf ⟨some t, some n⟩ =
      "[" ++ t ++ " - Lesson " ++ toString n ++ "]") ∧
    (∀ m l, (CourseSearchTool.sourceOf store m).link = some l →
      l ≠ "" ∧ ∃ n, m.lesson_number = some n ∧
        m.course_title.getD "unknown" ≠ "unknown" ∧
        store.get_lesson_link (m.course_title.getD "unknown") n = some l) := by
  refine ⟨?_, ?_, ?_, ?_, ?_, ?_⟩
  · rw [CourseSearchTool.formatResults, formatLoop_eq]
  · rw [CourseSearchTool.formatResults, formatLoop_eq]
  · rw [CourseSearchTool.formatResults, formatLoop_eq]
    simp [hlen]
  · intro ln
    rfl
  · intro t n
    simp [CourseSearchTool.headerOf, String.append_assoc]
  · intro m l h
    rcases hn : m.lesson_number with _ | n
    · simp [CourseSearchTool.sourceOf, hn] at h
    · simp only [CourseSearchTool.sourceOf, hn] at h
      by_cases ht : m.course_title.getD "unknown" ≠ "unknown"
      · simp only [if_pos ht] at h
        rcases hl : store.get_lesson_link (m.course_title.getD "unknown") n with
          _ | l0
        · simp [hl] at h
        · simp only [hl] at h
          by_cases hnz : (l0 != "") = true
          · simp only [if_pos hnz, Option.some.injEq] at h
            subst h
            exact ⟨by simpa using hnz, n, rfl, ht, hl⟩
          · rw [if_neg hnz] at h
            exact absurd h (by simp)
      · simp [if_neg ht] at h

/-- Claim C8 witness: two passages, the second with no course title, format
into two headed blocks and two sources, the first with a deep link and the
second rendered "unknown". -/
theorem c8_witness :
    (CourseSearchTool.formatResults storeOneHit
      (storeOneHit.search "q" none none)).1 =
      String.intercalate "\n\n"
        (((storeOneHit.search "q" none none).documents.zip
          (storeOneHit.search "q" none none).metadata).map
          fun p => CourseSearchTool.headerOf p.2 ++ "\n" ++ p.1) ∧
    (CourseSearchTool.formatResults storeOneHit
      (storeOneHit.search "q" none none)).2 =
      [{ text := "MCP - Lesson 2", link := some "https://example.com/lesson2" },
       { text := "unknown" }] := by
  obtain ⟨h1, h2, -, -, -, -⟩ :=
    c8_format_results storeOneHit (storeOneHit.search "q" none none) rfl
  refine ⟨h1, ?_⟩
  rw [h2]
  rfl

/-- Looking up a key right after a dictionary update yields the new value. -/
theorem dictGet_dictInsert {α : Type} (l : List (String × α)) (k : String)
    (v : α) : dictGet (dictInsert l k v) k = some v := by
  induction l with
  | nil => simp [dictInsert, dictGet]
  | cons p l ih =>
    rcases p with ⟨k1, v1⟩
    by_cases h : k1 = k
    · simp [dictInsert, dictGet, h]
    · simp [dictInsert, dictGet, h, ih]

/-- After resetting, no tool has a truthy `last_sources`, so the scan
returns the empty list. -/
theorem lastSourcesScan_reset (l : List (String × ToolModel)) :
    lastSourcesScan (l.map fun p =>
      (p.1, { p.2 with last_sources := p.2.last_sources.map fun _ => [] })) =
      [] := by
  induction l with
  | nil => rfl
  | cons p l ih =>
    rcases h : p.2.last_sources with _ | ss <;>
      simp [lastSourcesScan, h, ih]

/-- Claim C9: `register_tool` raises exactly when the tool's definition has
no truthy name, and registering twice under one name makes dispatch of that
name execute the last-registered tool. -/
theorem c9_register_requires_name_and_overwrites (m : ToolManager)
    (t1 t2 : ToolModel) (nm : String) (args : List (String × String)) :
    (∀ t : ToolModel, ToolManager.register_tool m t = .error () ↔
      (t.tdef.name = none ∨ t.tdef.name = some "")) ∧
    (t1.tdef.name = some nm → t2.tdef.name = some nm → nm ≠ "" →
      ∀ m1 m2, ToolManager.register_tool m t1 = .ok m1 →
        ToolManager.register_tool m1 t2 = .ok m2 →
        ToolManager.execute_tool m2 nm args = t2.execute args) := by
  constructor
  · intro t
    rcases hn : t.tdef.name with _ | s
    · simp [ToolManager.register_tool, hn]
    · by_cases hs : s = ""
      · simp [ToolManager.register_tool, hn, hs]
      · simp [ToolManager.register_tool, hn, hs]
  · intro h1 h2 hnm m1 m2 e1 e2
    have hb : (nm != "") = true := by simpa using hnm
    simp only [ToolManager.register_tool, h1, hb, if_true,
      Except.ok.injEq] at e1
    subst e1
    simp only [ToolManager.register_tool, h2, hb, if_true,
      Except.ok.injEq] at e2
    subst e2
    simp [ToolManager.execute_tool, dictGet_dictInsert]

/-- Claim C9 witness: registering a nameless tool raises, and after
registering `toolA` then `toolB` under "dup", dispatch runs `toolB`. -/
theorem c9_witness :
    ToolManager.register_tool manager0 toolNoName = .error () ∧
    ToolManager.execute_tool managerB "dup" [] = toolB.execute [] :=
  ⟨((c9_register_requires_name_and_overwrites manager0 toolA toolB "dup"
        []).1 toolNoName).mpr (Or.inl rfl),
   (c9_register_requires_name_and_overwrites manager0 toolA toolB "dup"
        []).2 rfl rfl (by decide) managerA managerB rfl rfl⟩

/-- Claim C10: an error result or an empty result set leaves `last_sources`
unchanged; only formatting a non-empty result set overwrites it; a tool's
non-empty sources are what `get_last_sources` returns, until
`reset_sources` makes the scan return the empty list. -/
theorem c10_last_sources_frame (store : StoreModel) (st : List Source)
    (q : String) (cn : Option String) (ln : Option Int) (m : ToolManager)
    (nm : String) (t : ToolModel) (rest : List (String × ToolModel))
    (ss : List Source) :
    (truthyStr (store.search q cn ln).error = true →
      (CourseSearchTool.execute store st q cn ln).2 = st) ∧
    ((store.search q cn ln).error = none →
      (store.search q cn ln).is_empty = true →
      (CourseSearchTool.execute store st q cn ln).2 = st) ∧
    ((store.search q cn ln).error = none →
      (store.search q cn ln).is_empty = false →
      (CourseSearchTool.execute store st q cn ln).2 =
        (CourseSearchTool.formatResults store (store.search q cn ln)).2) ∧
    (t.last_sources = some ss → ss ≠ [] →
      ToolManager.get_last_sources ⟨(nm, t) :: rest⟩ = ss) ∧
    ToolManager.get_last_sources (ToolManager.reset_sources m) = [] := by
  refine ⟨?_, ?_, ?_, ?_, ?_⟩
  · intro he
    rw [CourseSearchTool.execute]
    simp [he]
  · intro he hemp
    rw [CourseSearchTool.execute]
    simp [he, hemp, truthyStr]
  · intro he hemp
    rw [CourseSearchTool.execute]
    simp [he, hemp, truthyStr]
  · intro hls hne
    rw [ToolManager.get_last_sources]
    simp [lastSourcesScan, hls, hne]
  · rw [ToolManager.get_last_sources, ToolManager.reset_sources]
    exact lastSourcesScan_reset m.tools

/-- Claim C10 witness: an empty search leaves previously recorded sources
in place and retrievable, and resetting clears them. -/
theorem c10_witness :
    (CourseSearchTool.execute storeEmptyW [{ text := "MCP - Lesson 2" }]
      "q" none none).2 = [{ text := "MCP - Lesson 2" }] ∧
    ToolManager.get_last_sources ⟨[("dup", toolB)]⟩ =
      [{ text := "MCP - Lesson 2" }] ∧
    ToolManager.get_last_sources (ToolManager.reset_sources managerB) = [] := by
  obtain ⟨-, h2, -, h4, h5⟩ :=
    c10_last_sources_frame storeEmptyW [{ text := "MCP - Lesson 2" }] "q"
      none none managerB "dup" toolB [] [{ text := "MCP - Lesson 2" }]
  exact ⟨h2 rfl rfl, h4 rfl (by decide), h5⟩
